import Mathlib

/-!
Shallow embedding of the suspicious Windows event classifier from
`analyze.py` (function `analyze_suspicious_windows_events`), together with
theorems settling the specification claims about tiered base scoring, the
process and logon heuristics, raw-record retention, skip semantics and
totality.

Records are association lists from field names to dynamically typed values
(absent, integer, or string), mirroring the dictionary rows the Python code
iterates over.  Python truthiness, `int(...)` conversion (with its failure
mode), case-insensitive substring search and string formatting are modelled
explicitly.
-/

namespace Analyze

/-- A dynamically typed field value of a log record: absent (`None`), an
integer, or a string. -/
inductive Value where
  | none
  | int (n : Int)
  | str (s : String)
deriving DecidableEq, Repr

/-- A log record: an association list from field names to values, mirroring
one row of the input data frame. -/
abbrev Record := List (String × Value)

/-- `row.get(key, default)`: first binding of `key`, else the default. -/
def Record.getD (row : Record) (key : String) (dflt : Value) : Value :=
  match List.lookup key row with
  | some v => v
  | Option.none => dflt

/-- `row.get(key)`: first binding of `key`, else `None`. -/
def Record.getV (row : Record) (key : String) : Value :=
  Record.getD row key Value.none

/-- Python truthiness of a field value: `None`, `0` and the empty string are
falsy, everything else is truthy. -/
def pyTruthy : Value → Bool
  | Value.none => false
  | Value.int n => decide (n ≠ 0)
  | Value.str s => decide (s ≠ "")

/-- Accumulate decimal digits; any non-digit character aborts the parse. -/
def digitsToNatAux : List Char → Nat → Option Nat
  | [], acc => some acc
  | c :: cs, acc =>
    if c.isDigit then digitsToNatAux cs (acc * 10 + (c.toNat - 48))
    else Option.none

/-- Parse a nonempty list of decimal digits. -/
def digitsToNat : List Char → Option Nat
  | [] => Option.none
  | c :: cs => digitsToNatAux (c :: cs) 0

/-- Python `int(s)` on a string: surrounding whitespace is stripped, an
optional sign is allowed, then nonempty decimal digits; anything else fails
(`ValueError`). -/
def parsePyInt (s : String) : Option Int :=
  match ((s.toList.dropWhile Char.isWhitespace).reverse.dropWhile
      Char.isWhitespace).reverse with
  | [] => Option.none
  | c :: cs =>
    if c = '-' then Option.map (fun n => -(n : Int)) (digitsToNat cs)
    else if c = '+' then Option.map (fun n => (n : Int)) (digitsToNat cs)
    else Option.map (fun n => (n : Int)) (digitsToNat (c :: cs))

/-- Python `int(v)` on a field value: integers convert to themselves,
strings are parsed, `None` fails (`TypeError`).  `Option.none` is the raised
exception. -/
def pyInt : Value → Option Int
  | Value.int n => some n
  | Value.str s => parsePyInt s
  | Value.none => Option.none

/-- Python `str(v)` / f-string rendering of a field value. -/
def pyStr : Value → String
  | Value.int n => toString n
  | Value.str s => s
  | Value.none => "None"

/-- The literal `event_descriptions` table of `analyze.py`, in source
order. -/
def event_descriptions : List (Int × String) :=
  [(4624, "Successful Logon"),
   (4625, "Failed Logon"),
   (4648, "Logon with Explicit Credentials"),
   (4672, "Special Privileges Assigned"),
   (4688, "Process Creation"),
   (4689, "Process Exit"),
   (4703, "User Right Adjusted"),
   (4732, "Member Added to Security Group"),
   (4733, "Member Removed from Security Group"),
   (4656, "Object Handle Requested"),
   (4663, "Object Access Attempt"),
   (4608, "Windows Startup"),
   (4609, "Windows Shutdown"),
   (4616, "System Time Change"),
   (4740, "Account Locked Out"),
   (4768, "Kerberos Ticket Requested"),
   (4769, "Kerberos Ticket Granted"),
   (4776, "Credential Validation"),
   (5140, "Network Share Object Accessed"),
   (5156, "Connection Allowed"),
   (5157, "Connection Denied"),
   (7036, "Service Started/Stopped"),
   (1102, "Security Log Cleared"),
   (4720, "User Account Created"),
   (4726, "User Account Deleted"),
   (4728, "Member Added to Global Group"),
   (4735, "Security Group Changed"),
   (4798, "User Group Membership Enumerated")]

/-- The literal high-risk tier of event ids (`score += 3`). -/
def highRiskIds : List Int := [4625, 4648, 4720, 4726, 1102, 4740, 4672]

/-- The literal medium-risk tier of event ids (`score += 2`). -/
def mediumRiskIds : List Int := [4688, 4703, 4656, 4768, 4769, 4732, 4735]

/-- The literal low-risk tier of event ids (`score += 1`). -/
def lowRiskIds : List Int := [4624, 4689, 5140, 5156, 7036]

/-- The literal list of suspicious process substrings. -/
def suspicious_processes : List String :=
  ["powershell", "cmd", "wscript", "cscript", "mshta", "rundll32"]

/-- `event_descriptions.get(event_id, f"Unknown ({event_id})")`, the
fallback used inside the tier reason strings. -/
def nameOrUnknown (event_id : Int) : String :=
  match List.lookup event_id event_descriptions with
  | some nm => nm
  | Option.none => "Unknown (" ++ toString event_id ++ ")"

/-- `event_descriptions.get(event_id, f"Event {event_id}")`, the catalog
lookup used for the `event_name` output field. -/
def describeEvent (event_id : Int) : String :=
  match List.lookup event_id event_descriptions with
  | some nm => nm
  | Option.none => "Event " ++ toString event_id

/-- Python `s.lower()`: characterwise lowercasing. -/
def lowerStr (s : String) : String :=
  String.mk (s.toList.map Char.toLower)

/-- Python substring containment `needle in hay`. -/
def containsSub (needle hay : String) : Bool :=
  decide (needle.toList <:+: hay.toList)

/-- Tiered base scoring: membership tests in priority order High, Medium,
Low, with first match winning; any id outside all three tiers contributes
nothing. -/
def baseScore (event_id : Int) : Nat × List String :=
  if highRiskIds.contains event_id then
    (3, ["High-risk event: " ++ nameOrUnknown event_id])
  else if mediumRiskIds.contains event_id then
    (2, ["Medium-risk event: " ++ nameOrUnknown event_id])
  else if lowRiskIds.contains event_id then
    (1, ["Info event: " ++ nameOrUnknown event_id])
  else (0, [])

/-- Process-creation heuristic: `row.get("New_Process_Name", "")` must be a
string whose lowercasing contains one of the suspicious process names. -/
def procHeuristic (row : Record) : Nat × List String :=
  match Record.getD row "New_Process_Name" (Value.str "") with
  | Value.str pn =>
    if suspicious_processes.any (fun p => containsSub p (lowerStr pn)) then
      (2, ["Suspicious process: " ++ pn])
    else (0, [])
  | _ => (0, [])

/-- Logon heuristic: `row.get("Logon_Type")` must equal the string `"3"` or
the string `"10"` (Python equality, so the integers 3 and 10 do not
match). -/
def logonHeuristic (row : Record) : Nat × List String :=
  if [Value.str "3", Value.str "10"].contains (Record.getV row "Logon_Type")
  then
    (1, ["Remote logon (Type " ++ pyStr (Record.getV row "Logon_Type") ++ ")"])
  else (0, [])

/-- Field-specific heuristic dispatch: the process check for id 4688, else
the logon check for id 4624, else nothing. -/
def heuristic (row : Record) (event_id : Int) : Nat × List String :=
  if event_id = 4688 then procHeuristic row
  else if event_id = 4624 then logonHeuristic row
  else (0, [])

/-- Score and reasons accumulated for one record with a parsed event id:
the base tier contribution followed by the heuristic contribution. -/
def scoreRecord (row : Record) (event_id : Int) : Nat × List String :=
  ((baseScore event_id).1 + (heuristic row event_id).1,
   (baseScore event_id).2 ++ (heuristic row event_id).2)

/-- One emitted row of the suspicious-events output. -/
structure ClassificationResult where
  timestamp : Value
  event_id : Int
  event_name : String
  computer : Value
  user : Value
  suspicious_score : Nat
  reasons : String
  raw_data : Option Record
deriving DecidableEq, Repr

/-- Emission step for a record whose event id parsed to `event_id`: emit a
result exactly when the score is positive, joining the reasons with a
semicolon and retaining the raw record exactly when the score is at least
three. -/
def classifyWithId (row : Record) (event_id : Int) : Option ClassificationResult :=
  if 0 < (scoreRecord row event_id).1 then
    some (ClassificationResult.mk
      (Record.getV row "_time")
      event_id
      (describeEvent event_id)
      (Record.getD row "ComputerName" (Value.str "Unknown"))
      (Record.getD row "user" (Record.getD row "Account_Name"
        (Value.str "Unknown")))
      (scoreRecord row event_id).1
      (if (scoreRecord row event_id).2 = [] then "Generic suspicious"
       else String.intercalate "; " (scoreRecord row event_id).2)
      (if 3 ≤ (scoreRecord row event_id).1 then some row else Option.none))
  else Option.none

/-- Per-record classification: skip falsy `EventCode`, skip a failed
`int(...)` conversion (the `try`/`except` branch), otherwise score and
possibly emit. -/
def classifyRecord (row : Record) : Option ClassificationResult :=
  if pyTruthy (Record.getV row "EventCode") then
    match pyInt (Record.getV row "EventCode") with
    | some event_id => classifyWithId row event_id
    | Option.none => Option.none
  else Option.none

/-- A Python exception raised during classification. -/
inductive PyErr where
  | typeError
  | valueError
deriving DecidableEq, Repr

/-- Python `int(v)` with its exception made explicit. -/
def pyIntE : Value → Except PyErr Int
  | Value.int n => Except.ok n
  | Value.str s =>
    match parsePyInt s with
    | some n => Except.ok n
    | Option.none => Except.error PyErr.valueError
  | Value.none => Except.error PyErr.typeError

/-- Per-record classification with the exception semantics made explicit:
the only operation that can raise is `int(...)`, and the source wraps it in
`try`/`except`, turning the exception into a skip. -/
def classifyRecordE (row : Record) : Except PyErr (Option ClassificationResult) :=
  if pyTruthy (Record.getV row "EventCode") then
    match pyIntE (Record.getV row "EventCode") with
    | Except.ok event_id => Except.ok (classifyWithId row event_id)
    | Except.error _ => Except.ok Option.none
  else Except.ok Option.none

/-- The whole scan: per-record classification over the input rows in order,
collecting the emitted results. -/
def analyze_suspicious_windows_events (df : List Record) : List ClassificationResult :=
  List.filterMap classifyRecord df

/-- Concrete high-risk record used to witness the claims. -/
def demoHigh : Record := [("EventCode", Value.int 4625)]

/-- The result emitted for `demoHigh`. -/
def demoHighRes : ClassificationResult :=
  ClassificationResult.mk Value.none 4625 "Failed Logon" (Value.str "Unknown")
    (Value.str "Unknown") 3 "High-risk event: Failed Logon" (some demoHigh)

/-- Concrete process-creation record with a suspicious process name. -/
def demoProc : Record :=
  [("EventCode", Value.int 4688),
   ("New_Process_Name", Value.str "C:\\Windows\\System32\\powershell.exe -enc JAB")]

/-- Concrete remote-logon record with a string-typed logon type. -/
def demoLogon : Record :=
  [("EventCode", Value.str "4624"), ("Logon_Type", Value.str "10")]

/-- Concrete logon record whose logon type is the integer 3, not the
string. -/
def demoLogonInt : Record :=
  [("EventCode", Value.int 4624), ("Logon_Type", Value.int 3)]

/-- Concrete record with an unparseable event id. -/
def demoBad : Record := [("EventCode", Value.str "abc")]

/-- A value that converts to a nonzero integer is truthy. -/
lemma pyInt_truthy (v : Value) (n : Int) (h : pyInt v = some n) (hn : n ≠ 0) :
    pyTruthy v = true := by
  cases v with
  | none => exact Option.noConfusion h
  | int m =>
    simp [pyInt] at h
    subst h
    simp [pyTruthy, hn]
  | str s =>
    by_cases hs : s = ""
    · subst hs
      rw [show pyInt (Value.str "") = Option.none from rfl] at h
      exact Option.noConfusion h
    · simp [pyTruthy, hs]

/-- If `int(v)` fails then the explicit-exception conversion raises. -/
lemma pyIntE_err (v : Value) (h : pyInt v = Option.none) :
    ∃ e, pyIntE v = Except.error e := by
  cases v with
  | none => exact ⟨PyErr.typeError, rfl⟩
  | int n => exact Option.noConfusion h
  | str s =>
    simp [pyInt] at h
    exact ⟨PyErr.valueError, by simp [pyIntE, h]⟩

/-- If `int(v)` succeeds then the explicit-exception conversion agrees. -/
lemma pyIntE_ok (v : Value) (n : Int) (h : pyInt v = some n) :
    pyIntE v = Except.ok n := by
  cases v with
  | none => exact Option.noConfusion h
  | int m =>
    simp [pyInt] at h
    subst h
    rfl
  | str s =>
    simp [pyInt] at h
    simp [pyIntE, h]

/-- Once the event id parses to a nonzero integer, classification reduces
to the scoring-and-emission step. -/
lemma classifyRecord_eq (row : Record) (id : Int)
    (hid : pyInt (Record.getV row "EventCode") = some id) (hnz : id ≠ 0) :
    classifyRecord row = classifyWithId row id := by
  have ht := pyInt_truthy _ _ hid hnz
  simp [classifyRecord, ht, hid]

/-- When the heuristic step contributes nothing, the score and reasons are
exactly the base tier contribution. -/
lemma scoreRecord_no_heuristic (row : Record) (id : Int)
    (h : heuristic row id = (0, [])) :
    scoreRecord row id = baseScore id := by
  simp [scoreRecord, h]

/-- Shape of the emitted result for a record with a parsed nonzero event id
and a known positive score. -/
lemma classify_fields (row : Record) (id : Int) (s : Nat) (rs : List String)
    (hid : pyInt (Record.getV row "EventCode") = some id) (hnz : id ≠ 0)
    (hs : scoreRecord row id = (s, rs)) (hpos : 0 < s) :
    ∃ res, classifyRecord row = some res ∧
      res.suspicious_score = s ∧
      res.reasons = (if rs = [] then "Generic suspicious"
        else String.intercalate "; " rs) ∧
      res.raw_data = (if 3 ≤ s then some row else Option.none) ∧
      res.event_id = id ∧ res.event_name = describeEvent id := by
  refine ⟨ClassificationResult.mk (Record.getV row "_time") id
    (describeEvent id)
    (Record.getD row "ComputerName" (Value.str "Unknown"))
    (Record.getD row "user" (Record.getD row "Account_Name"
      (Value.str "Unknown")))
    s
    (if rs = [] then "Generic suspicious" else String.intercalate "; " rs)
    (if 3 ≤ s then some row else Option.none), ?_, rfl, rfl, rfl, rfl, rfl⟩
  rw [classifyRecord_eq row id hid hnz]
  unfold classifyWithId
  rw [hs]
  simp [hpos]

/-- Claim C7: the three literal tier lists used for base scoring are
pairwise disjoint: no event id appears in more than one of the High,
Medium and Low id lists. -/
theorem tiers_pairwise_disjoint (id : Int) :
    (id ∈ highRiskIds → mediumRiskIds.contains id = false ∧
      lowRiskIds.contains id = false) ∧
    (id ∈ mediumRiskIds → highRiskIds.contains id = false ∧
      lowRiskIds.contains id = false) ∧
    (id ∈ lowRiskIds → highRiskIds.contains id = false ∧
      mediumRiskIds.contains id = false) := by
  refine ⟨?_, ?_, ?_⟩ <;> intro h
  · simp only [highRiskIds, List.mem_cons, List.not_mem_nil, or_false] at h
    rcases h with rfl | rfl | rfl | rfl | rfl | rfl | rfl <;> decide
  · simp only [mediumRiskIds, List.mem_cons, List.not_mem_nil, or_false] at h
    rcases h with rfl | rfl | rfl | rfl | rfl | rfl | rfl <;> decide
  · simp only [lowRiskIds, List.mem_cons, List.not_mem_nil, or_false] at h
    rcases h with rfl | rfl | rfl | rfl | rfl <;> decide

/-- Witness for C7 at the concrete id 4625. -/
theorem tiers_pairwise_disjoint_witness :
    mediumRiskIds.contains 4625 = false ∧
    lowRiskIds.contains 4625 = false :=
  (tiers_pairwise_disjoint 4625).1 (by decide)

/-- Claim C5: a record whose event id field is absent (falsy `None`) or
not convertible to an integer is silently skipped: no result and no
exception. -/
theorem skip_unparseable (row : Record)
    (h : Record.getV row "EventCode" = Value.none ∨
      pyInt (Record.getV row "EventCode") = Option.none) :
    classifyRecord row = Option.none ∧
    classifyRecordE row = Except.ok Option.none := by
  rcases h with h | h
  · constructor
    · simp [classifyRecord, h, pyTruthy]
    · simp [classifyRecordE, h, pyTruthy]
  · cases ht : pyTruthy (Record.getV row "EventCode")
    · constructor
      · simp [classifyRecord, ht]
      · simp [classifyRecordE, ht]
    · obtain ⟨e, he⟩ := pyIntE_err _ h
      constructor
      · simp [classifyRecord, ht, h]
      · simp [classifyRecordE, ht, he]

/-- Witness for C5: the record whose event id is the string "abc" is
skipped without an exception. -/
theorem skip_unparseable_witness :
    classifyRecord demoBad = Option.none ∧
    classifyRecordE demoBad = Except.ok Option.none :=
  skip_unparseable demoBad (Or.inr (by decide))

/-- Claim C8: classification is total and exception-free: for every record
of any shape the explicit-exception semantics returns normally, with the
same skip-or-emit outcome as the pure classifier. -/
theorem classifier_total (row : Record) :
    classifyRecordE row = Except.ok (classifyRecord row) := by
  cases ht : pyTruthy (Record.getV row "EventCode")
  · simp [classifyRecord, classifyRecordE, ht]
  · cases hi : pyInt (Record.getV row "EventCode") with
    | none =>
      obtain ⟨e, he⟩ := pyIntE_err _ hi
      simp [classifyRecord, classifyRecordE, ht, hi, he]
    | some id =>
      have he := pyIntE_ok _ _ hi
      simp [classifyRecord, classifyRecordE, ht, hi, he]

/-- Claim C6: a result is emitted exactly when the record passes extraction
and its computed score is strictly positive; in particular an `EventCode`
of 9999 (outside all tiers, no heuristic) produces no result. -/
theorem emit_iff_positive_score :
    (∀ row : Record, (classifyRecord row).isSome = true ↔
       pyTruthy (Record.getV row "EventCode") = true ∧
       ∃ id, pyInt (Record.getV row "EventCode") = some id ∧
         0 < (scoreRecord row id).1) ∧
    classifyRecord [("EventCode", Value.int 9999)] = Option.none ∧
    analyze_suspicious_windows_events [[("EventCode", Value.int 9999)]] = [] := by
  refine ⟨?_, by decide, by decide⟩
  intro row
  constructor
  · intro h
    cases ht : pyTruthy (Record.getV row "EventCode")
    · simp [classifyRecord, ht] at h
    · refine ⟨rfl, ?_⟩
      cases hi : pyInt (Record.getV row "EventCode") with
      | none => simp [classifyRecord, ht, hi] at h
      | some id =>
        refine ⟨id, rfl, ?_⟩
        rcases Nat.eq_zero_or_pos (scoreRecord row id).1 with hz | hp
        · simp [classifyRecord, ht, hi, classifyWithId, hz] at h
        · exact hp
  · rintro ⟨ht, id, hi, hp⟩
    simp [classifyRecord, ht, hi, classifyWithId, hp]

/-- Claim C2: the raw record is retained exactly when the final score is at
least 3; results scoring 1 or 2 carry no raw record. -/
theorem raw_retention (row : Record) (res : ClassificationResult)
    (h : classifyRecord row = some res) :
    (3 ≤ res.suspicious_score → res.raw_data = some row) ∧
    (res.suspicious_score < 3 → res.raw_data = Option.none) := by
  cases ht : pyTruthy (Record.getV row "EventCode")
  · simp [classifyRecord, ht] at h
  · cases hi : pyInt (Record.getV row "EventCode") with
    | none => simp [classifyRecord, ht, hi] at h
    | some id =>
      rcases Nat.eq_zero_or_pos (scoreRecord row id).1 with hz | hp
      · simp [classifyRecord, ht, hi, classifyWithId, hz] at h
      · simp [classifyRecord, ht, hi, classifyWithId, hp] at h
        subst h
        constructor <;> intro hle <;> simp at hle ⊢
        · simp [hle]
        · omega

/-- Witness for C2 at a concrete high-risk record. -/
theorem raw_retention_witness :
    (3 ≤ demoHighRes.suspicious_score → demoHighRes.raw_data = some demoHigh) ∧
    (demoHighRes.suspicious_score < 3 → demoHighRes.raw_data = Option.none) :=
  raw_retention demoHigh demoHighRes (by decide)

/-- Claim C9: naming never fails: every emitted result's event name is the
catalog lookup with the synthesized fallback, and every id occurring in any
tier list is present in the descriptor table. -/
theorem event_name_from_catalog :
    (∀ (row : Record) (res : ClassificationResult),
        classifyRecord row = some res →
        res.event_name = describeEvent res.event_id) ∧
    (∀ id : Int, id ∈ highRiskIds ++ mediumRiskIds ++ lowRiskIds →
        (List.lookup id event_descriptions).isSome = true) := by
  constructor
  · intro row res h
    cases ht : pyTruthy (Record.getV row "EventCode")
    · simp [classifyRecord, ht] at h
    · cases hi : pyInt (Record.getV row "EventCode") with
      | none => simp [classifyRecord, ht, hi] at h
      | some id =>
        rcases Nat.eq_zero_or_pos (scoreRecord row id).1 with hz | hp
        · simp [classifyRecord, ht, hi, classifyWithId, hz] at h
        · simp [classifyRecord, ht, hi, classifyWithId, hp] at h
          subst h
          rfl
  · intro id h
    simp only [highRiskIds, mediumRiskIds, lowRiskIds, List.append_assoc,
      List.mem_append, List.mem_cons, List.not_mem_nil, or_false] at h
    rcases h with
      (rfl | rfl | rfl | rfl | rfl | rfl | rfl) |
      (rfl | rfl | rfl | rfl | rfl | rfl | rfl) |
      (rfl | rfl | rfl | rfl | rfl) <;> decide

/-- Witness for C9 at the concrete high-risk record and the id 4625. -/
theorem event_name_from_catalog_witness :
    demoHighRes.event_name = describeEvent demoHighRes.event_id ∧
    (List.lookup 4625 event_descriptions).isSome = true :=
  ⟨event_name_from_catalog.1 demoHigh demoHighRes (by decide),
   event_name_from_catalog.2 4625 (by decide)⟩

/-- Claim C1: for a record whose parsed event id sits in a tier and which
triggers no field-specific heuristic, the base score is the tier value
(High 3, Medium 2, Low 1), the single reason is the corresponding tier
string built from the catalog name, and the emitted result carries exactly
that score and reason. -/
theorem base_tier_scoring (row : Record) (v : Value) (id : Int)
    (hv : Record.getV row "EventCode" = v)
    (hid : pyInt v = some id)
    (hproc : id = 4688 → procHeuristic row = (0, []))
    (hlog : id = 4624 → logonHeuristic row = (0, [])) :
    (id ∈ highRiskIds →
      ∃ nm, List.lookup id event_descriptions = some nm ∧
        scoreRecord row id = (3, ["High-risk event: " ++ nm]) ∧
        ∃ res, classifyRecord row = some res ∧ res.suspicious_score = 3 ∧
          res.reasons = "High-risk event: " ++ nm) ∧
    (id ∈ mediumRiskIds →
      ∃ nm, List.lookup id event_descriptions = some nm ∧
        scoreRecord row id = (2, ["Medium-risk event: " ++ nm]) ∧
        ∃ res, classifyRecord row = some res ∧ res.suspicious_score = 2 ∧
          res.reasons = "Medium-risk event: " ++ nm) ∧
    (id ∈ lowRiskIds →
      ∃ nm, List.lookup id event_descriptions = some nm ∧
        scoreRecord row id = (1, ["Info event: " ++ nm]) ∧
        ∃ res, classifyRecord row = some res ∧ res.suspicious_score = 1 ∧
          res.reasons = "Info event: " ++ nm) := by
  subst hv
  refine ⟨?_, ?_, ?_⟩ <;> intro hmem
  · simp only [highRiskIds, List.mem_cons, List.not_mem_nil, or_false] at hmem
    rcases hmem with rfl | rfl | rfl | rfl | rfl | rfl | rfl <;>
      (obtain ⟨res, h1, h2, h3, h4, h5, h6⟩ :=
        classify_fields row _ 3 _ hid (by decide) rfl (by decide)
       exact ⟨_, rfl, rfl, res, h1, h2, h3.trans rfl⟩)
  · simp only [mediumRiskIds, List.mem_cons, List.not_mem_nil, or_false]
      at hmem
    rcases hmem with rfl | rfl | rfl | rfl | rfl | rfl | rfl
    · have hh : heuristic row 4688 = (0, []) := by
        simp [heuristic, hproc rfl]
      have hs : scoreRecord row 4688 =
          (2, ["Medium-risk event: Process Creation"]) :=
        (scoreRecord_no_heuristic row 4688 hh).trans (by decide)
      obtain ⟨res, h1, h2, h3, h4, h5, h6⟩ :=
        classify_fields row 4688 2 ["Medium-risk event: Process Creation"]
          hid (by decide) hs (by decide)
      exact ⟨"Process Creation", rfl, hs, res, h1, h2, h3.trans rfl⟩
    all_goals
      obtain ⟨res, h1, h2, h3, h4, h5, h6⟩ :=
        classify_fields row _ 2 _ hid (by decide) rfl (by decide)
      exact ⟨_, rfl, rfl, res, h1, h2, h3.trans rfl⟩
  · simp only [lowRiskIds, List.mem_cons, List.not_mem_nil, or_false] at hmem
    rcases hmem with rfl | rfl | rfl | rfl | rfl
    · have hh : heuristic row 4624 = (0, []) := by
        simp [heuristic, hlog rfl]
      have hs : scoreRecord row 4624 =
          (1, ["Info event: Successful Logon"]) :=
        (scoreRecord_no_heuristic row 4624 hh).trans (by decide)
      obtain ⟨res, h1, h2, h3, h4, h5, h6⟩ :=
        classify_fields row 4624 1 ["Info event: Successful Logon"]
          hid (by decide) hs (by decide)
      exact ⟨"Successful Logon", rfl, hs, res, h1, h2, h3.trans rfl⟩
    all_goals
      obtain ⟨res, h1, h2, h3, h4, h5, h6⟩ :=
        classify_fields row _ 1 _ hid (by decide) rfl (by decide)
      exact ⟨_, rfl, rfl, res, h1, h2, h3.trans rfl⟩

/-- Witness for C1 at the concrete high-risk record with id 4625. -/
theorem base_tier_scoring_witness :
    ∃ nm, List.lookup (4625 : Int) event_descriptions = some nm ∧
      scoreRecord demoHigh 4625 = (3, ["High-risk event: " ++ nm]) ∧
      ∃ res, classifyRecord demoHigh = some res ∧
        res.suspicious_score = 3 ∧
        res.reasons = "High-risk event: " ++ nm :=
  (base_tier_scoring demoHigh (Value.int 4625) 4625 rfl rfl
    (fun h => absurd h (by decide)) (fun h => absurd h (by decide))).1
    (by decide)

/-- Claim C3: a process-creation record (id 4688) whose process name is a
string containing a suspicious binary name (case-insensitively) scores the
medium base 2 plus 2 for the heuristic, with the two corresponding
reasons. -/
theorem suspicious_process_scoring (row : Record) (pn : String)
    (hid : pyInt (Record.getV row "EventCode") = some 4688)
    (hpn : Record.getD row "New_Process_Name" (Value.str "") = Value.str pn)
    (hmatch : suspicious_processes.any
      (fun p => containsSub p (lowerStr pn)) = true) :
    scoreRecord row 4688 =
      (4, ["Medium-risk event: Process Creation",
           "Suspicious process: " ++ pn]) ∧
    ∃ res, classifyRecord row = some res ∧
      res.suspicious_score = 4 ∧ 4 ≤ res.suspicious_score ∧
      res.reasons =
        "Medium-risk event: Process Creation; Suspicious process: " ++ pn := by
  have hp : procHeuristic row = (2, ["Suspicious process: " ++ pn]) := by
    simp [procHeuristic, hpn, hmatch]
  have hb : baseScore 4688 = (2, ["Medium-risk event: Process Creation"]) := by
    decide
  have hs : scoreRecord row 4688 =
      (4, ["Medium-risk event: Process Creation",
           "Suspicious process: " ++ pn]) := by
    simp [scoreRecord, heuristic, hp, hb]
  obtain ⟨res, h1, h2, h3, h4, h5, h6⟩ :=
    classify_fields row 4688 4 _ hid (by decide) hs (by decide)
  exact ⟨hs, res, h1, h2, h2.ge.trans (by omega), h3.trans rfl⟩

/-- Witness for C3 at a concrete powershell process-creation record. -/
theorem suspicious_process_scoring_witness :
    scoreRecord demoProc 4688 =
      (4, ["Medium-risk event: Process Creation",
           "Suspicious process: " ++
             "C:\\Windows\\System32\\powershell.exe -enc JAB"]) ∧
    ∃ res, classifyRecord demoProc = some res ∧
      res.suspicious_score = 4 ∧ 4 ≤ res.suspicious_score ∧
      res.reasons =
        "Medium-risk event: Process Creation; Suspicious process: " ++
          "C:\\Windows\\System32\\powershell.exe -enc JAB" :=
  suspicious_process_scoring demoProc
    "C:\\Windows\\System32\\powershell.exe -enc JAB"
    (by decide) (by decide) (by decide)

/-- Claim C4: a successful-logon record (id 4624) whose logon type is the
string "3" or the string "10" scores the low base 1 plus 1 for the remote
logon heuristic, with the two corresponding reasons. -/
theorem remote_logon_scoring (row : Record) (lt : String)
    (hid : pyInt (Record.getV row "EventCode") = some 4624)
    (hlt : Record.getV row "Logon_Type" = Value.str lt)
    (hval : lt = "3" ∨ lt = "10") :
    scoreRecord row 4624 =
      (2, ["Info event: Successful Logon",
           "Remote logon (Type " ++ lt ++ ")"]) ∧
    ∃ res, classifyRecord row = some res ∧
      res.suspicious_score = 2 ∧ 2 ≤ res.suspicious_score ∧
      res.reasons =
        "Info event: Successful Logon; Remote logon (Type " ++ lt ++ ")" := by
  have hl : logonHeuristic row =
      (1, ["Remote logon (Type " ++ lt ++ ")"]) := by
    rcases hval with rfl | rfl <;> simp [logonHeuristic, hlt, pyStr]
  have hb : baseScore 4624 = (1, ["Info event: Successful Logon"]) := by
    decide
  have hs : scoreRecord row 4624 =
      (2, ["Info event: Successful Logon",
           "Remote logon (Type " ++ lt ++ ")"]) := by
    simp [scoreRecord, heuristic, hl, hb]
  obtain ⟨res, h1, h2, h3, h4, h5, h6⟩ :=
    classify_fields row 4624 2 _ hid (by decide) hs (by decide)
  exact ⟨hs, res, h1, h2, h2.ge.trans (by omega), h3.trans rfl⟩

/-- Witness for C4 at a concrete type-10 logon record. -/
theorem remote_logon_scoring_witness :
    scoreRecord demoLogon 4624 =
      (2, ["Info event: Successful Logon",
           "Remote logon (Type " ++ "10" ++ ")"]) ∧
    ∃ res, classifyRecord demoLogon = some res ∧
      res.suspicious_score = 2 ∧ 2 ≤ res.suspicious_score ∧
      res.reasons =
        "Info event: Successful Logon; Remote logon (Type " ++ "10" ++ ")" :=
  remote_logon_scoring demoLogon "10" (by decide) (by decide)
    (Or.inr rfl)

/-- Claim C10: the remote-logon heuristic fires only on the exact strings
"3" and "10": with any other logon-type value (including the integers 3 and
10 and an absent field) a 4624 record keeps the base score 1 and its single
info reason. -/
theorem remote_logon_exact_strings (row : Record) (v : Value)
    (hid : pyInt (Record.getV row "EventCode") = some 4624)
    (hlt : Record.getV row "Logon_Type" = v)
    (hne3 : v ≠ Value.str "3") (hne10 : v ≠ Value.str "10") :
    scoreRecord row 4624 = (1, ["Info event: Successful Logon"]) ∧
    ∃ res, classifyRecord row = some res ∧ res.suspicious_score = 1 ∧
      res.reasons = "Info event: Successful Logon" := by
  have hl : logonHeuristic row = (0, []) := by
    simp [logonHeuristic, hlt, hne3, hne10]
  have hh : heuristic row 4624 = (0, []) := by
    simp [heuristic, hl]
  have hs : scoreRecord row 4624 = (1, ["Info event: Successful Logon"]) :=
    (scoreRecord_no_heuristic row 4624 hh).trans (by decide)
  obtain ⟨res, h1, h2, h3, h4, h5, h6⟩ :=
    classify_fields row 4624 1 ["Info event: Successful Logon"]
      hid (by decide) hs (by decide)
  exact ⟨hs, res, h1, h2, h3.trans rfl⟩

/-- Witness for C10 at a concrete logon record whose logon type is the
integer 3. -/
theorem remote_logon_exact_strings_witness :
    scoreRecord demoLogonInt 4624 = (1, ["Info event: Successful Logon"]) ∧
    ∃ res, classifyRecord demoLogonInt = some res ∧
      res.suspicious_score = 1 ∧
      res.reasons = "Info event: Successful Logon" :=
  remote_logon_exact_strings demoLogonInt (Value.int 3) (by decide)
    (by decide) (by decide) (by decide)

end Analyze
